import Mathlib

/-!
Shallow embedding of the VLM Browser Annotation Tool backend
(`src/backend/main.py`, `src/backend/models.py`,
`src/backend/migrate_schema.py`).

The backend is a Flask app over three SQLAlchemy tables
(videos / queries / annotations).  We model the persistent store as
explicit lists of rows plus id counters, and each HTTP handler as a pure
function from the store (and the request payload) to either an error or
an updated store plus a response.  The external `yt_dlp` duration lookup
(`get_video_duration`) is modelled as an `Option Int` parameter: `some v`
when the collaborator returns a duration value `v`, `none` when it fails
or returns nothing.
-/

namespace VlmBackend

/-- A row of the `videos` table (`models.py`, class `Video`).
Timestamps are not modelled. -/
structure Video where
  id : Nat
  url : String
  title : String
  description : String
  topic : String
  duration : Option Int
  notes : Option String
  status : String
  deriving Repr, DecidableEq

/-- A row of the `queries` table (`models.py`, class `Query`). -/
structure Query where
  id : Nat
  video_id : Nat
  query_text : String
  status : String
  deriving Repr, DecidableEq

/-- A row of the `annotations` table (`models.py`, the annotation model). -/
structure Annot where
  id : Nat
  query_id : Nat
  start_timestamp : String
  end_timestamp : String
  notes : String
  deriving Repr, DecidableEq

/-- The persistent store: the three tables plus the id sequences. -/
structure DB where
  videos : List Video
  queries : List Query
  annots : List Annot
  nextVideoId : Nat
  nextQueryId : Nat
  nextAnnotId : Nat
  deriving Repr, DecidableEq

/-- A JSON value usable in the `duration` field of a submission payload:
absent/`null`, an integer, or a string.  (Floats are out of scope.) -/
inductive DurVal where
  | null : DurVal
  | int : Int → DurVal
  | str : String → DurVal
  deriving Repr, DecidableEq

/-- Python `str.strip()` on the character list: drop leading and
trailing whitespace. -/
def stripChars (cs : List Char) : List Char :=
  ((cs.dropWhile Char.isWhitespace).reverse.dropWhile Char.isWhitespace).reverse

/-- Python `str.strip()`. -/
def strip (s : String) : String :=
  ⟨stripChars s.data⟩

/-- Digit-string to number (helper for the model of Python `int(str)`). -/
def digitsToNat (cs : List Char) : Option Nat :=
  if cs.isEmpty then none
  else if cs.all Char.isDigit then
    some (cs.foldl (fun a c => a * 10 + (c.toNat - '0'.toNat)) 0)
  else none

/-- Model of Python `int(str)`: surrounding whitespace is ignored, an
optional sign is followed by decimal digits; anything else raises
`ValueError` (modelled as `none`). -/
def pyInt? (s : String) : Option Int :=
  match stripChars s.data with
  | '+' :: rest => (digitsToNat rest).map Int.ofNat
  | '-' :: rest => (digitsToNat rest).map (fun n => -(n : Int))
  | rest => (digitsToNat rest).map Int.ofNat

/-- Python truthiness of a `duration` JSON value: `None`, `0` and `""`
are falsy (`if not video_duration:` in `submit_video_url`). -/
def durTruthy : DurVal → Bool
  | .null => false
  | .int n => n != 0
  | .str s => s != ""

/-- Model of Python `int(x)` applied to a duration value: integers pass
through, strings parse as integers (or fail), `None` raises `TypeError`
(modelled as `none`). -/
def durCoerce : DurVal → Option Int
  | .null => none
  | .int n => some n
  | .str s => pyInt? s

/-- One nested annotation object of a submission payload; a field is
`none` when the JSON key is absent. -/
structure AnnotInput where
  start_timestamp : Option String
  end_timestamp : Option String
  notes : Option String
  deriving Repr, DecidableEq

/-- One nested query object of a submission payload. -/
structure QueryInput where
  query_text : Option String
  annots : List AnnotInput
  deriving Repr, DecidableEq

/-- A single video submission payload (`/api/submit_video` body). -/
structure SubmitPayload where
  url : Option String
  title : Option String
  description : Option String
  topic : Option String
  duration : DurVal
  queries : List QueryInput
  deriving Repr, DecidableEq

/-- The distinct error responses of the submit handlers, in the order the
code checks them. -/
inductive SubmitError where
  | missingUrl : SubmitError
  | missingTitle : SubmitError
  | emptyUrl : SubmitError
  | emptyTitle : SubmitError
  | durationUnavailable : SubmitError
  | missingDuration : SubmitError
  | invalidDurationFormat : SubmitError
  | invalidDuration : SubmitError
  deriving Repr, DecidableEq

/-- The success response body of `/api/submit_video`. -/
structure SubmitResult where
  video : Video
  video_existed : Bool
  queries_created : Nat
  annots_created : Nat
  deriving Repr, DecidableEq

/-- `is_video_url` from `main.py`: true exactly when the lowercased URL
starts with `http://` or `https://`. -/
def is_video_url (url : String) : Bool :=
  let u := url.data.map Char.toLower
  "http://".data.isPrefixOf u || "https://".data.isPrefixOf u

/-- `Video.query.filter_by(url=video_url).first()`. -/
def findVideoByUrl (db : DB) (url : String) : Option Video :=
  db.videos.find? (fun v => v.url == url)

/-- The duration-resolution block of `submit_video_url` (only reached
when no Video with this url exists).  `lookup` is the result the
`get_video_duration` collaborator would return for this url. -/
def resolveDuration (url : String) (dur : DurVal) (lookup : Option Int) :
    Except SubmitError DurVal :=
  if !durTruthy dur && is_video_url url then
    match lookup with
    | some v => if v != 0 then .ok (.int v) else .error .durationUnavailable
    | none => .error .durationUnavailable
  else if !durTruthy dur then
    .error .missingDuration
  else
    .ok dur

/-- The coercion and positivity checks on the resolved duration value
(`int(video_duration)` then `video_duration <= 0`). -/
def checkDuration (dv : DurVal) : Except SubmitError Int :=
  match durCoerce dv with
  | none => .error .invalidDurationFormat
  | some n => if n ≤ 0 then .error .invalidDuration else .ok n

/-- The inner annotation loop: for each nested annotation object that has
a `notes` key, append a new `annotations` row under query `qid`.
Returns the new rows, the advanced id counter and the count of created
rows. -/
def mkAnnots (qid : Nat) (nextA : Nat) : List AnnotInput → List Annot × Nat × Nat
  | [] => ([], nextA, 0)
  | ai :: rest =>
    match ai.notes with
    | none => mkAnnots qid nextA rest
    | some n =>
      let a : Annot :=
        { id := nextA, query_id := qid,
          start_timestamp := ai.start_timestamp.getD "00:00:00",
          end_timestamp := ai.end_timestamp.getD "00:00:00",
          notes := n }
      let r := mkAnnots qid (nextA + 1) rest
      (a :: r.1, r.2.1, r.2.2 + 1)

/-- `Query.query.filter_by(video_id=..., query_text=...).first()`. -/
def findQuery (db : DB) (vid : Nat) (qt : String) : Option Query :=
  db.queries.find? (fun q => q.video_id == vid && q.query_text == qt)

/-- The query-processing loop of the submit handlers: skip entries with a
missing or blank `query_text`; trim the text; reuse an existing Query of
this video with the same trimmed text, else create one; always append
the nested annotations.  Returns the updated store and the counts of
created queries and annotations. -/
def processQueries (vid : Nat) (db : DB) : List QueryInput → DB × Nat × Nat
  | [] => (db, 0, 0)
  | qi :: rest =>
    match qi.query_text with
    | none => processQueries vid db rest
    | some t =>
      if strip t == "" then processQueries vid db rest
      else
        let qt := strip t
        match findQuery db vid qt with
        | some q =>
          let r := mkAnnots q.id db.nextAnnotId qi.annots
          let db1 := { db with annots := db.annots ++ r.1, nextAnnotId := r.2.1 }
          let rec1 := processQueries vid db1 rest
          (rec1.1, rec1.2.1, rec1.2.2 + r.2.2)
        | none =>
          let q : Query :=
            { id := db.nextQueryId, video_id := vid, query_text := qt,
              status := "pending" }
          let r := mkAnnots q.id db.nextAnnotId qi.annots
          let db1 := { db with
            queries := db.queries ++ [q], nextQueryId := db.nextQueryId + 1,
            annots := db.annots ++ r.1, nextAnnotId := r.2.1 }
          let rec1 := processQueries vid db1 rest
          (rec1.1, rec1.2.1 + 1, rec1.2.2 + r.2.2)

/-- The body of `submit_video_url` (`POST /api/submit_video`) and,
identically, of one iteration of `submit_multiple_videos`: field
presence and non-blankness checks, url-based Video dedup, duration
resolution for new videos only, then the query/annotation loop. -/
def submitOne (db : DB) (p : SubmitPayload) (lookup : Option Int) :
    Except SubmitError (DB × SubmitResult) :=
  match p.url with
  | none => .error .missingUrl
  | some url =>
    match p.title with
    | none => .error .missingTitle
    | some title =>
      if strip url == "" then .error .emptyUrl
      else if strip title == "" then .error .emptyTitle
      else
        match findVideoByUrl db url with
        | some v =>
          let r := processQueries v.id db p.queries
          .ok (r.1, { video := v, video_existed := true,
                      queries_created := r.2.1, annots_created := r.2.2 })
        | none =>
          match resolveDuration url p.duration lookup with
          | .error e => .error e
          | .ok dv =>
            match checkDuration dv with
            | .error e => .error e
            | .ok d =>
              let v : Video :=
                { id := db.nextVideoId, url := url, title := title,
                  description := p.description.getD "",
                  topic := p.topic.getD "",
                  duration := some d, notes := none, status := "pending" }
              let db0 := { db with
                videos := db.videos ++ [v],
                nextVideoId := db.nextVideoId + 1 }
              let r := processQueries v.id db0 p.queries
              .ok (r.1, { video := v, video_existed := false,
                          queries_created := r.2.1, annots_created := r.2.2 })

/-- `POST /api/submit_video` at the commit level: on success the session
is committed and the store is replaced; on an error response the handler
returns before `db.session.commit()`, so the persistent store is
unchanged. -/
def submit_video_url (db : DB) (p : SubmitPayload) (lookup : Option Int) :
    DB × Except SubmitError SubmitResult :=
  match submitOne db p lookup with
  | .error e => (db, .error e)
  | .ok (db1, r) => (db1, .ok r)

/-- Error responses of `/api/submit_videos`: an empty array, or a
per-item failure carrying the reported index. -/
inductive BatchError where
  | emptyArray : BatchError
  | itemError : Nat → SubmitError → BatchError
  deriving Repr, DecidableEq

/-- The aggregate success response of `/api/submit_videos`. -/
structure BatchSummary where
  results : List SubmitResult
  new_videos : Nat
  existing_videos : Nat
  total_queries_created : Nat
  total_annots_created : Nat
  deriving Repr, DecidableEq

/-- The per-item loop of `submit_multiple_videos`: each item runs the
same body as the single submit against the session state; a failure at
item `idx` aborts with that index, before any commit.  `lf` maps a url
to the duration-lookup collaborator's answer for it. -/
def runItems (lf : String → Option Int) :
    DB → Nat → List SubmitPayload →
    Except (Nat × SubmitError) (DB × List SubmitResult)
  | db, _, [] => .ok (db, [])
  | db, idx, p :: rest =>
    match submitOne db p (lf (p.url.getD "")) with
    | .error e => .error (idx, e)
    | .ok (db1, r) =>
      match runItems lf db1 (idx + 1) rest with
      | .error ke => .error ke
      | .ok (db2, rs) => .ok (db2, r :: rs)

/-- `POST /api/submit_videos` at the commit level: `db.session.commit()`
runs only after every item succeeded; an error response returns first,
leaving the persistent store unchanged. -/
def submit_multiple_videos (db : DB) (items : List SubmitPayload)
    (lf : String → Option Int) : DB × Except BatchError BatchSummary :=
  if items.length = 0 then (db, .error .emptyArray)
  else
    match runItems lf db 0 items with
    | .error (k, e) => (db, .error (.itemError k e))
    | .ok (db1, rs) =>
      (db1, .ok {
        results := rs,
        new_videos := (rs.filter (fun r => !r.video_existed)).length,
        existing_videos := (rs.filter (fun r => r.video_existed)).length,
        total_queries_created := (rs.map (fun r => r.queries_created)).sum,
        total_annots_created := (rs.map (fun r => r.annots_created)).sum })

/-- Error responses of `PUT /api/queries/<id>/status`. -/
inductive StatusError where
  | notFound : StatusError
  | missingStatus : StatusError
  | invalidStatus : StatusError
  deriving Repr, DecidableEq

/-- `update_query_status` (`PUT /api/queries/<id>/status`): 404 when the
query id does not resolve; 400 when the body has no `status`; 400
`Invalid status` unless the value is `pending` or `finished`; otherwise
set the field and commit. -/
def update_query_status (db : DB) (query_id : Nat) (status : Option String) :
    Except StatusError DB :=
  match db.queries.find? (fun q => q.id == query_id) with
  | none => .error .notFound
  | some _ =>
    match status with
    | none => .error .missingStatus
    | some s =>
      if s != "pending" && s != "finished" then .error .invalidStatus
      else
        .ok { db with queries :=
          db.queries.map (fun q => if q.id == query_id then { q with status := s } else q) }

/-- The 404 error of the point-lookup handlers. -/
inductive NotFoundError where
  | notFound : NotFoundError
  deriving Repr, DecidableEq

/-- `delete_video` (`DELETE /api/videos/<id>`): `db.session.delete(video)`
with the `cascade='all, delete-orphan'` relationships of `models.py`
removes the video, every query whose `video_id` references it, and every
annotation under one of those queries. -/
def delete_video (db : DB) (video_id : Nat) : Except NotFoundError DB :=
  match db.videos.find? (fun v => v.id == video_id) with
  | none => .error .notFound
  | some _ =>
    let deadQ := db.queries.filter (fun q => q.video_id == video_id)
    .ok { db with
      videos := db.videos.filter (fun v => v.id != video_id),
      queries := db.queries.filter (fun q => q.video_id != video_id),
      annots := db.annots.filter (fun a => !(deadQ.any (fun q => q.id == a.query_id))) }

/-- Error responses of `POST /api/videos/<id>/queries`. -/
inductive CreateQueryError where
  | notFound : CreateQueryError
  | missingText : CreateQueryError
  | emptyText : CreateQueryError
  deriving Repr, DecidableEq

/-- `create_query` (`POST /api/videos/<id>/queries`): 404 when the video
id does not resolve, 400 when `query_text` is missing or blank after
stripping; otherwise unconditionally insert a new Query row storing the
text exactly as given (no trimming, no dedup lookup). -/
def create_query (db : DB) (video_id : Nat) (query_text : Option String) :
    Except CreateQueryError (DB × Query) :=
  match db.videos.find? (fun v => v.id == video_id) with
  | none => .error .notFound
  | some _ =>
    match query_text with
    | none => .error .missingText
    | some t =>
      if strip t == "" then .error .emptyText
      else
        let q : Query :=
          { id := db.nextQueryId, video_id := video_id, query_text := t,
            status := "pending" }
        .ok ({ db with
          queries := db.queries ++ [q],
          nextQueryId := db.nextQueryId + 1 }, q)

/-! ### Schema migration (`migrate_schema.py`)

The migration operates on whatever columns the live database has, so we
model a migration-level view of the store: per-table schema flags (does
the column exist?) plus the row values the migration reads and writes.
A column value is `Option String`; adding a column with a `DEFAULT` fills
every existing row with the default (PostgreSQL `ALTER TABLE ... ADD
COLUMN ... DEFAULT`), and dropping a column clears its values. -/

/-- A `queries` row as seen by the migration. -/
structure QRow where
  status : String
  tag : Option String
  query_type : Option String
  query_types : Option String
  deriving Repr, DecidableEq

/-- An `annotations` row as seen by the migration. -/
structure ARow where
  is_annotated : Option String
  deriving Repr, DecidableEq

/-- Which of the migration-relevant columns exist. -/
structure Schema where
  has_tag : Bool
  has_query_type : Bool
  has_query_types : Bool
  has_is_annotated : Bool
  deriving Repr, DecidableEq

/-- The database as seen by the migration script. -/
structure MigDB where
  schema : Schema
  qrows : List QRow
  arows : List ARow
  deriving Repr, DecidableEq

/-- `'["' || COALESCE(x, 'negative') || '"]'`. -/
def jsonWrap (x : Option String) : String :=
  "[\"" ++ x.getD "negative" ++ "\"]"

/-- The column-shuffling part of `migrate_queries_table`: depending on
which of `tag` / `query_type` / `query_types` exist, add `query_types`
(default `'["negative"]'`), convert the legacy scalar into it, and drop
the legacy column; or only add `query_types`; or skip.  Each branch is
the net effect of the `ALTER TABLE` / `UPDATE` statements it runs. -/
def migrateQueriesColumns (m : MigDB) : MigDB :=
  if m.schema.has_tag && !m.schema.has_query_type && !m.schema.has_query_types then
    { m with
      schema := { m.schema with has_query_types := true, has_tag := false },
      qrows := m.qrows.map (fun r =>
        { r with query_types := some (jsonWrap r.tag), tag := none }) }
  else if m.schema.has_query_type && !m.schema.has_query_types then
    { m with
      schema := { m.schema with has_query_types := true, has_query_type := false },
      qrows := m.qrows.map (fun r =>
        { r with query_types := some (jsonWrap r.query_type), query_type := none }) }
  else if !m.schema.has_query_types then
    { m with
      schema := { m.schema with has_query_types := true },
      qrows := m.qrows.map (fun r => { r with query_types := some "[\"negative\"]" }) }
  else m

/-- `UPDATE queries SET status = 'unverified' WHERE status = 'pending'`. -/
def statusPendingStep (r : QRow) : QRow :=
  if r.status == "pending" then { r with status := "unverified" } else r

/-- `UPDATE queries SET status = 'verified' WHERE status = 'finished'`. -/
def statusFinishedStep (r : QRow) : QRow :=
  if r.status == "finished" then { r with status := "verified" } else r

/-- `UPDATE queries SET query_types = '["negative"]' WHERE query_types IS
NULL OR query_types = ''`. -/
def fixNullQueryTypes (r : QRow) : QRow :=
  if r.query_types == none || r.query_types == some "" then
    { r with query_types := some "[\"negative\"]" }
  else r

/-- `migrate_queries_table`: the column migration, then the two status
updates, then the NULL/empty `query_types` repair, in program order. -/
def migrate_queries_table (m : MigDB) : MigDB :=
  let m1 := migrateQueriesColumns m
  { m1 with qrows :=
      ((m1.qrows.map statusPendingStep).map statusFinishedStep).map fixNullQueryTypes }

/-- `UPDATE annotations SET is_annotated = 'unannotated' WHERE
is_annotated IS NULL`. -/
def fixNullIsAnnotated (r : ARow) : ARow :=
  if r.is_annotated == none then { r with is_annotated := some "unannotated" } else r

/-- `migrate_annotations_table`: add `is_annotated` (default
`'unannotated'`) when missing, then repair NULL values. -/
def migrate_annotations_table (m : MigDB) : MigDB :=
  let m1 :=
    if !m.schema.has_is_annotated then
      { m with
        schema := { m.schema with has_is_annotated := true },
        arows := m.arows.map (fun r => { r with is_annotated := some "unannotated" }) }
    else m
  { m1 with arows := m1.arows.map fixNullIsAnnotated }

/-- The whole migration as run by `main()`: queries table first, then the
annotations table, committed together. -/
def runMigration (m : MigDB) : MigDB :=
  migrate_annotations_table (migrate_queries_table m)

/-! ### Measures used in the statements -/

/-- Number of Query rows under video `vid` whose text is exactly `qt`. -/
def countQueriesWith (db : DB) (vid : Nat) (qt : String) : Nat :=
  (db.queries.filter (fun q => q.video_id == vid && q.query_text == qt)).length

/-- Does this payload entry carry a non-blank text trimming to `qt`? -/
def entryHasText (qt : String) (qi : QueryInput) : Bool :=
  match qi.query_text with
  | some t => !(strip t == "") && strip t == qt
  | none => false

/-- Number of nested annotation objects carrying a `notes` key. -/
def notesCount (ais : List AnnotInput) : Nat :=
  (ais.filter (fun ai => ai.notes.isSome)).length

/-- Total number of annotation rows the query loop appends: the `notes`
carrying annotation objects of every entry that is not skipped. -/
def notesTotal : List QueryInput → Nat
  | [] => 0
  | qi :: rest =>
    (match qi.query_text with
     | some t => if strip t == "" then 0 else notesCount qi.annots
     | none => 0) + notesTotal rest

/-! ### Lemmas about the query-processing loop -/

theorem mkAnnots_len (qid : Nat) : ∀ (ais : List AnnotInput) (na : Nat),
    (mkAnnots qid na ais).1.length = notesCount ais ∧
    (mkAnnots qid na ais).2.2 = notesCount ais := by
  intro ais
  induction ais with
  | nil => intro na; simp [mkAnnots, notesCount]
  | cons ai rest ih =>
    intro na
    cases h : ai.notes with
    | none =>
      simpa [mkAnnots, notesCount, List.filter_cons, h] using ih na
    | some n =>
      have := ih (na + 1)
      simp [mkAnnots, notesCount, List.filter_cons, h] at this ⊢
      omega

theorem processQueries_videos (vid : Nat) :
    ∀ (items : List QueryInput) (db : DB),
      (processQueries vid db items).1.videos = db.videos := by
  intro items
  induction items with
  | nil => intro db; rfl
  | cons qi rest ih =>
    intro db
    obtain ⟨qtext, ais⟩ := qi
    cases qtext with
    | none => simpa [processQueries] using ih db
    | some t =>
      by_cases ht : strip t = ""
      · simpa [processQueries, ht] using ih db
      · cases hf : findQuery db vid (strip t) with
        | some q => simpa [processQueries, ht, hf] using ih _
        | none => simpa [processQueries, ht, hf] using ih _

theorem processQueries_mem (vid : Nat) :
    ∀ (items : List QueryInput) (db : DB) (q : Query),
      q ∈ (processQueries vid db items).1.queries →
      q ∈ db.queries ∨ (q.video_id = vid ∧ q.status = "pending") := by
  intro items
  induction items with
  | nil => intro db q hq; exact Or.inl hq
  | cons qi rest ih =>
    intro db q hq
    obtain ⟨qtext, ais⟩ := qi
    cases qtext with
    | none =>
      simp only [processQueries] at hq
      exact ih db q hq
    | some t =>
      by_cases ht : strip t = ""
      · simp only [processQueries, ht] at hq
        simp at hq
        exact ih db q hq
      · cases hf : findQuery db vid (strip t) with
        | some q0 =>
          simp only [processQueries, ht, hf] at hq
          simp [ht, hf] at hq
          have h2 := ih _ q hq
          exact h2
        | none =>
          simp only [processQueries, ht, hf] at hq
          simp [ht, hf] at hq
          rcases ih _ q hq with h | h
          · simp at h
            rcases h with h | h
            · exact Or.inl h
            · subst h; exact Or.inr ⟨rfl, rfl⟩
          · exact Or.inr h

theorem processQueries_queries_len (vid : Nat) :
    ∀ (items : List QueryInput) (db : DB),
      (processQueries vid db items).1.queries.length =
        db.queries.length + (processQueries vid db items).2.1 := by
  intro items
  induction items with
  | nil => intro db; simp [processQueries]
  | cons qi rest ih =>
    intro db
    obtain ⟨qtext, ais⟩ := qi
    cases qtext with
    | none => simpa [processQueries] using ih db
    | some t =>
      by_cases ht : strip t = ""
      · simpa [processQueries, ht] using ih db
      · cases hf : findQuery db vid (strip t) with
        | some q0 =>
          simp only [processQueries, ht, hf]
          simp [ht]
          rw [ih]
        | none =>
          simp only [processQueries, ht, hf]
          simp [ht]
          rw [ih]
          simp
          omega

theorem processQueries_annots_len (vid : Nat) :
    ∀ (items : List QueryInput) (db : DB),
      (processQueries vid db items).1.annots.length =
        db.annots.length + (processQueries vid db items).2.2 ∧
      (processQueries vid db items).2.2 = notesTotal items := by
  intro items
  induction items with
  | nil => intro db; simp [processQueries, notesTotal]
  | cons qi rest ih =>
    intro db
    obtain ⟨qtext, ais⟩ := qi
    cases qtext with
    | none => simpa [processQueries, notesTotal] using ih db
    | some t =>
      by_cases ht : strip t = ""
      · simpa [processQueries, notesTotal, ht] using ih db
      · cases hf : findQuery db vid (strip t) with
        | some q0 =>
          simp only [processQueries, ht, hf]
          simp [ht, notesTotal]
          have h2 := ih { db with
            annots := db.annots ++ (mkAnnots q0.id db.nextAnnotId ais).1,
            nextAnnotId := (mkAnnots q0.id db.nextAnnotId ais).2.1 }
          have hm := mkAnnots_len q0.id ais db.nextAnnotId
          simp at h2
          constructor
          · rw [h2.1]
            omega
          · rw [h2.2]
            omega
        | none =>
          simp only [processQueries, ht, hf]
          simp [ht, notesTotal]
          have h2 := ih { db with
            queries := db.queries ++
              [{ id := db.nextQueryId, video_id := vid, query_text := strip t,
                 status := "pending" }],
            nextQueryId := db.nextQueryId + 1,
            annots := db.annots ++ (mkAnnots db.nextQueryId db.nextAnnotId ais).1,
            nextAnnotId := (mkAnnots db.nextQueryId db.nextAnnotId ais).2.1 }
          have hm := mkAnnots_len db.nextQueryId ais db.nextAnnotId
          simp at h2
          constructor
          · rw [h2.1]
            omega
          · rw [h2.2]
            omega

theorem findQuery_none_count {db : DB} {vid : Nat} {s : String}
    (h : findQuery db vid s = none) : countQueriesWith db vid s = 0 := by
  rw [findQuery, List.find?_eq_none] at h
  rw [countQueriesWith, List.length_eq_zero, List.filter_eq_nil_iff]
  exact fun a ha => h a ha

theorem findQuery_some_count {db : DB} {vid : Nat} {s : String} {q : Query}
    (h : findQuery db vid s = some q) : countQueriesWith db vid s ≠ 0 := by
  have hmem := List.mem_of_find?_eq_some h
  have hp := List.find?_some h
  intro hc
  rw [countQueriesWith, List.length_eq_zero, List.filter_eq_nil_iff] at hc
  exact hc q hmem hp

theorem processQueries_count (vid : Nat) (qt : String) :
    ∀ (items : List QueryInput) (db : DB),
      countQueriesWith (processQueries vid db items).1 vid qt =
        if countQueriesWith db vid qt = 0 ∧ items.any (entryHasText qt) = true
        then 1 else countQueriesWith db vid qt := by
  intro items
  induction items with
  | nil => intro db; simp [processQueries]
  | cons qi rest ih =>
    intro db
    obtain ⟨qtext, ais⟩ := qi
    cases qtext with
    | none =>
      simp only [processQueries]
      rw [ih db]
      simp [entryHasText]
    | some t =>
      by_cases ht : strip t = ""
      · simp only [processQueries]
        rw [if_pos (by simp [ht])]
        rw [ih db]
        simp [entryHasText, ht]
      · simp only [processQueries]
        rw [if_neg (by simp [ht])]
        cases hf : findQuery db vid (strip t) with
        | some q0 =>
          simp only [hf]
          rw [ih]
          have hne : countQueriesWith db vid (strip t) ≠ 0 := findQuery_some_count hf
          have hc1 : countQueriesWith { db with
              annots := db.annots ++ (mkAnnots q0.id db.nextAnnotId ais).1,
              nextAnnotId := (mkAnnots q0.id db.nextAnnotId ais).2.1 } vid qt =
              countQueriesWith db vid qt := rfl
          rw [hc1]
          by_cases hq : strip t = qt
          · rw [hq] at hne
            simp [hne]
          · have hh : entryHasText qt ⟨some t, ais⟩ = false := by
              simp [entryHasText, hq]
            simp only [List.any_cons, hh, Bool.false_or]
        | none =>
          simp only [hf]
          rw [ih]
          have h0 : countQueriesWith db vid (strip t) = 0 := findQuery_none_count hf
          have hc1 : countQueriesWith { db with
              queries := db.queries ++
                [{ id := db.nextQueryId, video_id := vid, query_text := strip t,
                   status := "pending" }],
              nextQueryId := db.nextQueryId + 1,
              annots := db.annots ++ (mkAnnots db.nextQueryId db.nextAnnotId ais).1,
              nextAnnotId := (mkAnnots db.nextQueryId db.nextAnnotId ais).2.1 } vid qt =
              countQueriesWith db vid qt + (if strip t = qt then 1 else 0) := by
            simp only [countQueriesWith, List.filter_append, List.length_append]
            congr 1
            by_cases hq : strip t = qt
            · simp [List.filter_cons, hq]
            · simp [List.filter_cons, hq]
          rw [hc1]
          by_cases hq : strip t = qt
          · rw [hq] at h0
            have hh : entryHasText qt ⟨some t, ais⟩ = true := by
              simp [entryHasText, hq]
              exact hq ▸ ht
            simp [List.any_cons, hh, h0, hq]
          · have hh : entryHasText qt ⟨some t, ais⟩ = false := by
              simp [entryHasText, hq]
            simp only [List.any_cons, hh, Bool.false_or, hq, if_false]
            simp

/-! ### C7: cascade deletion -/

/-- C7: for every stored Video, `deleteVideo(id)` removes the Video, all
Queries whose `video_id` references it, and all Annotations under those
Queries: afterwards no video row has the deleted id, no query row
references the deleted Video, and no annotation row references any query
that belonged to the deleted Video. -/
theorem delete_video_cascades (db : DB) (vid : Nat) (db' : DB)
    (h : delete_video db vid = .ok db') :
    (∀ v ∈ db'.videos, v.id ≠ vid) ∧
    (∀ q ∈ db'.queries, q.video_id ≠ vid) ∧
    (∀ a ∈ db'.annots, ∀ q ∈ db.queries, q.video_id = vid → a.query_id ≠ q.id) := by
  cases hf : db.videos.find? (fun v => v.id == vid) with
  | none => simp [delete_video, hf] at h
  | some v0 =>
    simp only [delete_video, hf, Except.ok.injEq] at h
    subst h
    refine ⟨?_, ?_, ?_⟩
    · intro v hv
      simp only [List.mem_filter, bne_iff_ne, ne_eq] at hv
      exact hv.2
    · intro q hq
      simp only [List.mem_filter, bne_iff_ne, ne_eq] at hq
      exact hq.2
    · intro a ha q hq hqvid
      simp only [List.mem_filter, Bool.not_eq_true', List.any_eq_false,
        List.mem_filter] at ha
      have h3 := ha.2 q ⟨hq, by simp [hqvid]⟩
      simp only [beq_iff_eq] at h3
      exact fun hcontra => h3 hcontra.symm

/-- Witness for C7: the spec example, a Video with 2 Queries and 3 total
Annotations; after the delete no child row references it. -/
theorem delete_video_cascades_witness :
    ∃ db' : DB,
      delete_video
        { videos := [{ id := 1, url := "u", title := "t", description := "",
                       topic := "", duration := some 5, notes := none,
                       status := "pending" }],
          queries := [{ id := 1, video_id := 1, query_text := "Q1", status := "pending" },
                      { id := 2, video_id := 1, query_text := "Q2", status := "pending" }],
          annots := [{ id := 1, query_id := 1, start_timestamp := "00:00:00",
                       end_timestamp := "00:00:01", notes := "a" },
                     { id := 2, query_id := 1, start_timestamp := "00:00:00",
                       end_timestamp := "00:00:02", notes := "b" },
                     { id := 3, query_id := 2, start_timestamp := "00:00:00",
                       end_timestamp := "00:00:03", notes := "c" }],
          nextVideoId := 2, nextQueryId := 3, nextAnnotId := 4 } 1 =
        .ok { videos := [], queries := [], annots := [],
              nextVideoId := 2, nextQueryId := 3, nextAnnotId := 4 } ∧
      db' = { videos := [], queries := [], annots := [],
              nextVideoId := 2, nextQueryId := 3, nextAnnotId := 4 } ∧
      (∀ v ∈ db'.videos, v.id ≠ 1) ∧
      (∀ q ∈ db'.queries, q.video_id ≠ 1) ∧
      (∀ a ∈ db'.annots,
        ∀ q ∈ [({ id := 1, video_id := 1, query_text := "Q1", status := "pending" } : Query),
               { id := 2, video_id := 1, query_text := "Q2", status := "pending" }],
          q.video_id = 1 → a.query_id ≠ q.id) := by
  refine ⟨{ videos := [], queries := [], annots := [],
            nextVideoId := 2, nextQueryId := 3, nextAnnotId := 4 }, rfl, rfl, ?_⟩
  exact delete_video_cascades
    { videos := [{ id := 1, url := "u", title := "t", description := "",
                   topic := "", duration := some 5, notes := none,
                   status := "pending" }],
      queries := [{ id := 1, video_id := 1, query_text := "Q1", status := "pending" },
                  { id := 2, video_id := 1, query_text := "Q2", status := "pending" }],
      annots := [{ id := 1, query_id := 1, start_timestamp := "00:00:00",
                   end_timestamp := "00:00:01", notes := "a" },
                 { id := 2, query_id := 1, start_timestamp := "00:00:00",
                   end_timestamp := "00:00:02", notes := "b" },
                 { id := 3, query_id := 2, start_timestamp := "00:00:00",
                   end_timestamp := "00:00:03", notes := "c" }],
      nextVideoId := 2, nextQueryId := 3, nextAnnotId := 4 } 1
    { videos := [], queries := [], annots := [],
      nextVideoId := 2, nextQueryId := 3, nextAnnotId := 4 } rfl

/-! ### C9: the standalone createQuery path has no dedup and no trim -/

/-- C9: for every existing Video and non-blank text, `createQuery` always
appends one new Query row storing the text exactly as given (untrimmed),
for every store — in particular also when a Query with the same trimmed
text already exists under the video — whereas the ingest path
(`processQueries`) reuses such an existing Query and appends nothing. -/
theorem create_query_no_dedup (db : DB) (vid : Nat) (t : String)
    (hv : (db.videos.find? (fun v => v.id == vid)).isSome = true)
    (ht : strip t ≠ "") :
    create_query db vid (some t) =
      .ok ({ db with
             queries := db.queries ++
               [{ id := db.nextQueryId, video_id := vid, query_text := t,
                  status := "pending" }],
             nextQueryId := db.nextQueryId + 1 },
           { id := db.nextQueryId, video_id := vid, query_text := t,
             status := "pending" }) ∧
    (∀ q', findQuery db vid (strip t) = some q' →
      (processQueries vid db [⟨some t, []⟩]).1.queries = db.queries) := by
  constructor
  · rw [Option.isSome_iff_exists] at hv
    obtain ⟨v0, hv0⟩ := hv
    simp only [create_query, hv0]
    rw [if_neg (by simp [ht])]
  · intro q' hq'
    simp only [processQueries]
    rw [if_neg (by simp [ht])]
    simp only [hq']

/-- Witness for C9: a store already holding a "Q1" Query for the video;
`createQuery` with `" Q1 "` appends a second, untrimmed row, while the
ingest path reuses the existing row. -/
theorem create_query_no_dedup_witness :
    (create_query
        { videos := [{ id := 1, url := "u", title := "t", description := "",
                       topic := "", duration := some 5, notes := none,
                       status := "pending" }],
          queries := [{ id := 1, video_id := 1, query_text := "Q1", status := "pending" }],
          annots := [], nextVideoId := 2, nextQueryId := 2, nextAnnotId := 1 } 1
        (some " Q1 ") =
      .ok ({ videos := [{ id := 1, url := "u", title := "t", description := "",
                          topic := "", duration := some 5, notes := none,
                          status := "pending" }],
             queries := [{ id := 1, video_id := 1, query_text := "Q1", status := "pending" },
                         { id := 2, video_id := 1, query_text := " Q1 ", status := "pending" }],
             annots := [], nextVideoId := 2, nextQueryId := 3, nextAnnotId := 1 },
           { id := 2, video_id := 1, query_text := " Q1 ", status := "pending" })) ∧
    (processQueries 1
        { videos := [{ id := 1, url := "u", title := "t", description := "",
                       topic := "", duration := some 5, notes := none,
                       status := "pending" }],
          queries := [{ id := 1, video_id := 1, query_text := "Q1", status := "pending" }],
          annots := [], nextVideoId := 2, nextQueryId := 2, nextAnnotId := 1 }
        [⟨some " Q1 ", []⟩]).1.queries =
      [{ id := 1, video_id := 1, query_text := "Q1", status := "pending" }] := by
  have h := create_query_no_dedup
    { videos := [{ id := 1, url := "u", title := "t", description := "",
                   topic := "", duration := some 5, notes := none,
                   status := "pending" }],
      queries := [{ id := 1, video_id := 1, query_text := "Q1", status := "pending" }],
      annots := [], nextVideoId := 2, nextQueryId := 2, nextAnnotId := 1 } 1 " Q1 "
    (by decide) (by decide)
  exact ⟨h.1, h.2 _ rfl⟩

/-! ### C1: the status-update command -/

theorem setStatus_find?_map (qid : Nat) (s : String) (l : List Query) :
    (l.map (fun q => if q.id == qid then { q with status := s } else q)).find?
        (fun q => q.id == qid) =
      (l.find? (fun q => q.id == qid)).map
        (fun q => if q.id == qid then { q with status := s } else q) := by
  rw [List.find?_map]
  have hp : ((fun q : Query => q.id == qid) ∘ fun q =>
      if q.id == qid then { q with status := s } else q) =
      (fun q : Query => q.id == qid) := by
    funext q
    by_cases h : q.id = qid <;> simp [Function.comp, h]
  rw [hp]

theorem setStatus_map_idem (qid : Nat) (s : String) (l : List Query) :
    (l.map (fun q => if q.id == qid then { q with status := s } else q)).map
        (fun q => if q.id == qid then { q with status := s } else q) =
      l.map (fun q => if q.id == qid then { q with status := s } else q) := by
  rw [List.map_map]
  refine List.map_congr_left (fun q _ => ?_)
  by_cases h : q.id = qid <;> simp [h]

/-- C1 counterexample: on a store holding Query 1 (status `unverified`),
`setStatus(1, "verified")` does not succeed as the claim states: the
handler only accepts `pending`/`finished` and rejects `verified` with
`Invalid status`. -/
theorem update_query_status_verified_rejected :
    update_query_status
      { videos := [{ id := 1, url := "u", title := "t", description := "",
                     topic := "", duration := some 5, notes := none,
                     status := "pending" }],
        queries := [{ id := 1, video_id := 1, query_text := "Q1",
                      status := "unverified" }],
        annots := [], nextVideoId := 2, nextQueryId := 2, nextAnnotId := 1 }
      1 (some "verified") = .error .invalidStatus := by
  rfl

/-- C1 amended: for every stored Query, `setStatus(queryId, s)` succeeds
exactly when `s` is in the allowed set `{pending, finished}` (the code's
legacy value set — not the spec's `{unverified, verified}`); every other
value, e.g. `"archived"` or `"verified"`, is rejected with
`InvalidStatus`; a successful transition touches no videos and no
annotations, and re-applying the same status is idempotent and does not
error. -/
theorem update_query_status_allowed (db : DB) (qid : Nat) (s : String)
    (hq : (db.queries.find? (fun q => q.id == qid)).isSome = true) :
    ((∃ db', update_query_status db qid (some s) = .ok db') ↔
      (s = "pending" ∨ s = "finished")) ∧
    (∀ db', update_query_status db qid (some s) = .ok db' →
      db'.videos = db.videos ∧ db'.annots = db.annots ∧
      update_query_status db' qid (some s) = .ok db') ∧
    (¬(s = "pending" ∨ s = "finished") →
      update_query_status db qid (some s) = .error .invalidStatus) := by
  obtain ⟨q0, hq0⟩ := Option.isSome_iff_exists.mp hq
  refine ⟨⟨?_, ?_⟩, ?_, ?_⟩
  · intro ⟨db', hdb'⟩
    simp only [update_query_status, hq0] at hdb'
    by_cases hs : s = "pending" ∨ s = "finished"
    · exact hs
    · rw [if_pos (by push_neg at hs; simp [hs.1, hs.2])] at hdb'
      cases hdb'
  · intro hs
    refine ⟨{ db with
      queries := db.queries.map
        (fun q => if q.id == qid then { q with status := s } else q) }, ?_⟩
    simp only [update_query_status, hq0]
    rcases hs with hs | hs <;> simp [hs]
  · intro db' hdb'
    simp only [update_query_status, hq0] at hdb'
    by_cases hs : (s != "pending" && s != "finished") = true
    · rw [if_pos hs] at hdb'
      cases hdb'
    · rw [if_neg hs] at hdb'
      injection hdb' with h2
      subst h2
      refine ⟨rfl, rfl, ?_⟩
      have hfind := setStatus_find?_map qid s db.queries
      simp only [update_query_status]
      rw [hfind, hq0]
      simp only [Option.map_some']
      rw [if_neg hs]
      rw [setStatus_map_idem qid s db.queries]
  · intro hs
    have hs' : (s != "pending" && s != "finished") = true := by
      push_neg at hs
      simp [hs.1, hs.2]
    simp only [update_query_status, hq0]
    rw [if_pos hs']

/-- Witness for C1: on a store holding Query 1, `setStatus(1,
"finished")` succeeds, leaves videos and annotations untouched, and
re-applying it returns the same store; `setStatus(1, "archived")` is
rejected with `InvalidStatus`. -/
theorem update_query_status_allowed_witness :
    (∃ db',
      update_query_status
        { videos := [], queries := [{ id := 1, video_id := 1, query_text := "Q1",
                                      status := "unverified" }],
          annots := [], nextVideoId := 2, nextQueryId := 2, nextAnnotId := 1 }
        1 (some "finished") = .ok db' ∧
      db'.annots = [] ∧
      update_query_status db' 1 (some "finished") = .ok db') ∧
    update_query_status
      { videos := [], queries := [{ id := 1, video_id := 1, query_text := "Q1",
                                    status := "unverified" }],
        annots := [], nextVideoId := 2, nextQueryId := 2, nextAnnotId := 1 }
      1 (some "archived") = .error .invalidStatus := by
  obtain ⟨hiff, hok, herr⟩ := update_query_status_allowed
    { videos := [], queries := [{ id := 1, video_id := 1, query_text := "Q1",
                                  status := "unverified" }],
      annots := [], nextVideoId := 2, nextQueryId := 2, nextAnnotId := 1 }
    1 "finished" (by decide)
  obtain ⟨db', hdb'⟩ := hiff.mpr (Or.inr rfl)
  obtain ⟨hv, ha, hidem⟩ := hok db' hdb'
  refine ⟨⟨db', hdb', ?_, hidem⟩, ?_⟩
  · rw [ha]
  · exact (update_query_status_allowed
      { videos := [], queries := [{ id := 1, video_id := 1, query_text := "Q1",
                                    status := "unverified" }],
        annots := [], nextVideoId := 2, nextQueryId := 2, nextAnnotId := 1 }
      1 "archived" (by decide)).2.2 (by simp)

/-! ### C2, C3, C5: the single-submit engine -/

/-- C2 counterexample: a new local-path submission with a supplied
duration of `0` is not rejected with `InvalidDuration`: the falsy value
is treated as missing, and the handler answers `MissingDuration`. -/
theorem submit_zero_duration_not_invalid :
    (submit_video_url (⟨[], [], [], 1, 1, 1⟩ : DB)
      { url := some "/tmp/clip.mp4", title := some "T", description := none,
        topic := none, duration := .int 0, queries := [] } none).2 =
      .error .missingDuration ∧
    SubmitError.missingDuration ≠ .invalidDuration ∧
    SubmitError.missingDuration ≠ .invalidDurationFormat := by
  exact ⟨rfl, by decide, by decide⟩

/-- C2 amended: for a new-url submission, a supplied *truthy* duration
value is coerced with `int(...)` and rejected exactly when the coercion
fails (`InvalidDurationFormat`) or the integer is `≤ 0`
(`InvalidDuration`); otherwise the new Video stores that positive
integer.  (A supplied falsy duration — `0`, `""`, `null` — is instead
treated as absent, see the counterexample.) -/
theorem submit_duration_validation (db : DB) (p : SubmitPayload)
    (lookup : Option Int) (url title : String)
    (hu : p.url = some url) (htl : p.title = some title)
    (hu' : strip url ≠ "") (htl' : strip title ≠ "")
    (hnew : findVideoByUrl db url = none)
    (htr : durTruthy p.duration = true) :
    (durCoerce p.duration = none →
      submitOne db p lookup = .error .invalidDurationFormat) ∧
    (∀ n, durCoerce p.duration = some n → n ≤ 0 →
      submitOne db p lookup = .error .invalidDuration) ∧
    (∀ n, durCoerce p.duration = some n → 0 < n →
      ∃ db1 r, submitOne db p lookup = .ok (db1, r) ∧
        r.video.duration = some n ∧ r.video_existed = false) := by
  have hres : resolveDuration url p.duration lookup = .ok p.duration := by
    simp [resolveDuration, htr]
  refine ⟨?_, ?_, ?_⟩
  · intro hc
    simp only [submitOne, hu, htl]
    rw [if_neg (by simp [hu'])]
    rw [if_neg (by simp [htl'])]
    simp only [hnew, hres, checkDuration, hc]
  · intro n hc hn
    simp only [submitOne, hu, htl]
    rw [if_neg (by simp [hu'])]
    rw [if_neg (by simp [htl'])]
    simp only [hnew, hres, checkDuration, hc]
    rw [if_pos hn]
  · intro n hc hn
    simp only [submitOne, hu, htl]
    rw [if_neg (by simp [hu'])]
    rw [if_neg (by simp [htl'])]
    simp only [hnew, hres, checkDuration, hc]
    rw [if_neg (by omega)]
    exact ⟨_, _, rfl, rfl, rfl⟩

/-- Witness for C2: a supplied duration `-3` on a fresh local-path
submission is rejected with `InvalidDuration`, and a supplied `7` is
stored on the created Video. -/
theorem submit_duration_validation_witness :
    submitOne (⟨[], [], [], 1, 1, 1⟩ : DB)
      { url := some "/tmp/clip.mp4", title := some "T", description := none,
        topic := none, duration := .int (-3), queries := [] } none =
      .error .invalidDuration ∧
    (∃ db1 r, submitOne (⟨[], [], [], 1, 1, 1⟩ : DB)
      { url := some "/tmp/clip.mp4", title := some "T", description := none,
        topic := none, duration := .int 7, queries := [] } none =
      .ok (db1, r) ∧ r.video.duration = some 7 ∧ r.video_existed = false) := by
  constructor
  · exact (submit_duration_validation (⟨[], [], [], 1, 1, 1⟩ : DB)
      { url := some "/tmp/clip.mp4", title := some "T", description := none,
        topic := none, duration := .int (-3), queries := [] } none
      "/tmp/clip.mp4" "T" rfl rfl
      (by decide) (by decide) rfl (by decide)).2.1 (-3) rfl (by decide)
  · exact (submit_duration_validation (⟨[], [], [], 1, 1, 1⟩ : DB)
      { url := some "/tmp/clip.mp4", title := some "T", description := none,
        topic := none, duration := .int 7, queries := [] } none
      "/tmp/clip.mp4" "T" rfl rfl
      (by decide) (by decide) rfl (by decide)).2.2 7 rfl (by decide)

/-- C3: for a new-url submission with `duration` omitted/null: on a
remote (`http`/`https`) url the duration-lookup collaborator decides the
outcome — a failed lookup yields `DurationUnavailable` with the store
unchanged (no Video row), a successful lookup `d > 0` stores
`duration = d`; on a non-remote url the submission yields
`MissingDuration` for every state of the collaborator, which is never
consulted. -/
theorem submit_auto_duration (db : DB) (p : SubmitPayload)
    (lookup : Option Int) (url title : String)
    (hu : p.url = some url) (htl : p.title = some title)
    (hu' : strip url ≠ "") (htl' : strip title ≠ "")
    (hnew : findVideoByUrl db url = none)
    (hdur : p.duration = .null) :
    (is_video_url url = true →
      (lookup = none →
        submit_video_url db p lookup = (db, .error .durationUnavailable)) ∧
      (∀ d, lookup = some d → 0 < d →
        ∃ db1 r, submitOne db p lookup = .ok (db1, r) ∧
          r.video.duration = some d ∧ r.video_existed = false)) ∧
    (is_video_url url = false →
      submit_video_url db p lookup = (db, .error .missingDuration)) := by
  constructor
  · intro hremote
    constructor
    · intro hl
      have hs1 : submitOne db p lookup = .error .durationUnavailable := by
        simp only [submitOne, hu, htl]
        rw [if_neg (by simp [hu'])]
        rw [if_neg (by simp [htl'])]
        simp only [hnew, resolveDuration, hdur, durTruthy, hremote, hl]
        simp
      simp [submit_video_url, hs1]
    · intro d hl hd
      have hres : resolveDuration url p.duration lookup = .ok (.int d) := by
        simp only [resolveDuration, hdur, durTruthy, hremote, hl]
        simp
        omega
      simp only [submitOne, hu, htl]
      rw [if_neg (by simp [hu'])]
      rw [if_neg (by simp [htl'])]
      simp only [hnew, hres, checkDuration, durCoerce]
      rw [if_neg (by omega)]
      exact ⟨_, _, rfl, rfl, rfl⟩
  · intro hlocal
    have hs1 : submitOne db p lookup = .error .missingDuration := by
      simp only [submitOne, hu, htl]
      rw [if_neg (by simp [hu'])]
      rw [if_neg (by simp [htl'])]
      simp only [hnew, resolveDuration, hdur, durTruthy, hlocal]
      simp
    simp [submit_video_url, hs1]

/-- Witness for C3: remote url with failing lookup yields
`DurationUnavailable` and the untouched store; with the lookup answering
`42` the Video stores `duration = 42`; a `/tmp/clip.mp4` submission
yields `MissingDuration` both with a failing and a successful
collaborator. -/
theorem submit_auto_duration_witness :
    (submit_video_url (⟨[], [], [], 1, 1, 1⟩ : DB)
      { url := some "http://example.com/v", title := some "T",
        description := none, topic := none, duration := .null, queries := [] }
      none =
      ((⟨[], [], [], 1, 1, 1⟩ : DB),
       .error .durationUnavailable)) ∧
    (∃ db1 r, submitOne (⟨[], [], [], 1, 1, 1⟩ : DB)
      { url := some "http://example.com/v", title := some "T",
        description := none, topic := none, duration := .null, queries := [] }
      (some 42) = .ok (db1, r) ∧ r.video.duration = some 42) ∧
    (submit_video_url (⟨[], [], [], 1, 1, 1⟩ : DB)
      { url := some "/tmp/clip.mp4", title := some "T", description := none,
        topic := none, duration := .null, queries := [] } none =
      ((⟨[], [], [], 1, 1, 1⟩ : DB),
       .error .missingDuration)) ∧
    (submit_video_url (⟨[], [], [], 1, 1, 1⟩ : DB)
      { url := some "/tmp/clip.mp4", title := some "T", description := none,
        topic := none, duration := .null, queries := [] } (some 42) =
      ((⟨[], [], [], 1, 1, 1⟩ : DB),
       .error .missingDuration)) := by
  refine ⟨?_, ?_, ?_, ?_⟩
  · exact ((submit_auto_duration (⟨[], [], [], 1, 1, 1⟩ : DB)
      { url := some "http://example.com/v", title := some "T",
        description := none, topic := none, duration := .null, queries := [] }
      none "http://example.com/v" "T" rfl rfl
      (by decide) (by decide) rfl rfl).1 (by decide)).1 rfl
  · obtain ⟨db1, r, h1, h2, h3⟩ := ((submit_auto_duration
      (⟨[], [], [], 1, 1, 1⟩ : DB)
      { url := some "http://example.com/v", title := some "T",
        description := none, topic := none, duration := .null, queries := [] }
      (some 42) "http://example.com/v" "T" rfl rfl (by decide) (by decide)
      rfl rfl).1 (by decide)).2 42 rfl (by decide)
    exact ⟨db1, r, h1, h2⟩
  · exact (submit_auto_duration (⟨[], [], [], 1, 1, 1⟩ : DB)
      { url := some "/tmp/clip.mp4", title := some "T", description := none,
        topic := none, duration := .null, queries := [] } none
      "/tmp/clip.mp4" "T" rfl rfl
      (by decide) (by decide) rfl rfl).2 (by decide)
  · exact (submit_auto_duration (⟨[], [], [], 1, 1, 1⟩ : DB)
      { url := some "/tmp/clip.mp4", title := some "T", description := none,
        topic := none, duration := .null, queries := [] } (some 42)
      "/tmp/clip.mp4" "T" rfl rfl
      (by decide) (by decide) rfl rfl).2 (by decide)

/-- C5: when a Video with the submitted url already exists, the
submission succeeds reporting `videoExisted = true` and that stored
Video; the videos table — hence every stored field of the existing Video
— is left unchanged; and the whole handler result is independent of the
duration-lookup collaborator (all duration logic is skipped). -/
theorem submit_video_dedup (db : DB) (p : SubmitPayload)
    (lookup : Option Int) (url title : String) (v : Video)
    (hu : p.url = some url) (htl : p.title = some title)
    (hu' : strip url ≠ "") (htl' : strip title ≠ "")
    (hex : findVideoByUrl db url = some v) :
    (∃ db1 qc ac, submitOne db p lookup =
        .ok (db1, { video := v, video_existed := true,
                    queries_created := qc, annots_created := ac }) ∧
      db1.videos = db.videos) ∧
    (∀ l₁ l₂ : Option Int, submitOne db p l₁ = submitOne db p l₂) := by
  constructor
  · refine ⟨(processQueries v.id db p.queries).1,
      (processQueries v.id db p.queries).2.1,
      (processQueries v.id db p.queries).2.2, ?_,
      processQueries_videos v.id p.queries db⟩
    simp only [submitOne, hu, htl]
    rw [if_neg (by simp [hu'])]
    rw [if_neg (by simp [htl'])]
    simp only [hex]
  · intro l₁ l₂
    have h1 : ∀ l : Option Int, submitOne db p l =
        .ok ((processQueries v.id db p.queries).1,
          { video := v, video_existed := true,
            queries_created := (processQueries v.id db p.queries).2.1,
            annots_created := (processQueries v.id db p.queries).2.2 }) := by
      intro l
      simp only [submitOne, hu, htl]
      rw [if_neg (by simp [hu'])]
      rw [if_neg (by simp [htl'])]
      simp only [hex]
    rw [h1 l₁, h1 l₂]

/-- Witness for C5: re-submitting url "u" with entirely different
metadata returns `videoExisted = true`, the originally stored Video, and
an unchanged videos table. -/
theorem submit_video_dedup_witness :
    ∃ db1 qc ac,
      submitOne
        { videos := [{ id := 1, url := "u", title := "Orig", description := "d",
                       topic := "tp", duration := some 9, notes := none,
                       status := "pending" }],
          queries := [], annots := [],
          nextVideoId := 2, nextQueryId := 1, nextAnnotId := 1 }
        { url := some "u", title := some "New", description := some "other",
          topic := some "other", duration := .int 123, queries := [] } none =
        .ok (db1, { video := { id := 1, url := "u", title := "Orig",
                               description := "d", topic := "tp",
                               duration := some 9, notes := none,
                               status := "pending" },
                    video_existed := true,
                    queries_created := qc, annots_created := ac }) ∧
      db1.videos = [{ id := 1, url := "u", title := "Orig", description := "d",
                      topic := "tp", duration := some 9, notes := none,
                      status := "pending" }] := by
  exact (submit_video_dedup
    { videos := [{ id := 1, url := "u", title := "Orig", description := "d",
                   topic := "tp", duration := some 9, notes := none,
                   status := "pending" }],
      queries := [], annots := [],
      nextVideoId := 2, nextQueryId := 1, nextAnnotId := 1 }
    { url := some "u", title := some "New", description := some "other",
      topic := some "other", duration := .int 123, queries := [] } none
    "u" "New"
    { id := 1, url := "u", title := "Orig", description := "d",
      topic := "tp", duration := some 9, notes := none, status := "pending" }
    rfl rfl (by decide) (by decide) rfl).1

/-! ### C8: idempotence of the schema migration -/

theorem map_self_of_fix {α : Type} (l : List α) (f : α → α)
    (h : ∀ a ∈ l, f a = a) : l.map f = l := by
  induction l with
  | nil => rfl
  | cons a t ih =>
    simp only [List.map_cons, h a (by simp)]
    rw [ih (fun b hb => h b (by simp [hb]))]

theorem statusSteps_stable (r : QRow) :
    (statusFinishedStep (statusPendingStep r)).status ≠ "pending" ∧
    (statusFinishedStep (statusPendingStep r)).status ≠ "finished" := by
  by_cases h1 : r.status = "pending"
  · simp [statusPendingStep, statusFinishedStep, h1]
  · by_cases h2 : r.status = "finished"
    · simp [statusPendingStep, statusFinishedStep, h1, h2]
    · simp [statusPendingStep, statusFinishedStep, h1, h2]

theorem sp_id_of (r : QRow) (h : r.status ≠ "pending") :
    statusPendingStep r = r := by
  simp [statusPendingStep, h]

theorem sf_id_of (r : QRow) (h : r.status ≠ "finished") :
    statusFinishedStep r = r := by
  simp [statusFinishedStep, h]

theorem fix_keeps_status (r : QRow) :
    (fixNullQueryTypes r).status = r.status := by
  unfold fixNullQueryTypes
  split <;> rfl

theorem fix_stable (r : QRow) :
    (fixNullQueryTypes r).query_types ≠ none ∧
    (fixNullQueryTypes r).query_types ≠ some "" := by
  unfold fixNullQueryTypes
  by_cases h : (r.query_types == none || r.query_types == some "") = true
  · rw [if_pos h]
    constructor <;> simp
  · rw [if_neg h]
    simp only [Bool.or_eq_true, beq_iff_eq, not_or] at h
    exact ⟨h.1, h.2⟩

theorem fix_idem (r : QRow) :
    fixNullQueryTypes (fixNullQueryTypes r) = fixNullQueryTypes r := by
  have h := fix_stable r
  generalize hx : fixNullQueryTypes r = x at h ⊢
  rw [fixNullQueryTypes]
  rw [if_neg (by simp [h.1, h.2])]

theorem row_final_stable (r : QRow) :
    statusPendingStep
        (fixNullQueryTypes (statusFinishedStep (statusPendingStep r))) =
      fixNullQueryTypes (statusFinishedStep (statusPendingStep r)) ∧
    statusFinishedStep
        (fixNullQueryTypes (statusFinishedStep (statusPendingStep r))) =
      fixNullQueryTypes (statusFinishedStep (statusPendingStep r)) ∧
    fixNullQueryTypes
        (fixNullQueryTypes (statusFinishedStep (statusPendingStep r))) =
      fixNullQueryTypes (statusFinishedStep (statusPendingStep r)) := by
  have hst := statusSteps_stable r
  have hks := fix_keeps_status (statusFinishedStep (statusPendingStep r))
  refine ⟨?_, ?_, fix_idem _⟩
  · exact sp_id_of _ (by rw [hks]; exact hst.1)
  · exact sf_id_of _ (by rw [hks]; exact hst.2)

theorem mqc_arows (m : MigDB) :
    (migrateQueriesColumns m).arows = m.arows := by
  unfold migrateQueriesColumns
  split_ifs <;> rfl

theorem mqc_hqt (m : MigDB) :
    (migrateQueriesColumns m).schema.has_query_types = true := by
  unfold migrateQueriesColumns
  split_ifs with h1 h2 h3 <;> simp_all

theorem mqt_schema (m : MigDB) :
    (migrate_queries_table m).schema = (migrateQueriesColumns m).schema := rfl

theorem mqt_arows (m : MigDB) :
    (migrate_queries_table m).arows = m.arows := mqc_arows m

theorem mqt_qrows (m : MigDB) :
    (migrate_queries_table m).qrows =
      (((migrateQueriesColumns m).qrows.map statusPendingStep).map
        statusFinishedStep).map fixNullQueryTypes := rfl

theorem mqt_done (m : MigDB) :
    (migrate_queries_table m).schema.has_query_types = true ∧
    ∀ r ∈ (migrate_queries_table m).qrows,
      statusPendingStep r = r ∧ statusFinishedStep r = r ∧
      fixNullQueryTypes r = r := by
  constructor
  · rw [mqt_schema]
    exact mqc_hqt m
  · intro r hr
    rw [mqt_qrows] at hr
    obtain ⟨r1, hr1, rfl⟩ := List.mem_map.mp hr
    obtain ⟨r2, hr2, rfl⟩ := List.mem_map.mp hr1
    obtain ⟨r3, hr3, rfl⟩ := List.mem_map.mp hr2
    exact row_final_stable r3

theorem migrate_queries_table_of_done (m : MigDB)
    (h : m.schema.has_query_types = true)
    (hrows : ∀ r ∈ m.qrows,
      statusPendingStep r = r ∧ statusFinishedStep r = r ∧
      fixNullQueryTypes r = r) :
    migrate_queries_table m = m := by
  have hmqc : migrateQueriesColumns m = m := by
    unfold migrateQueriesColumns
    rw [if_neg (by simp [h]), if_neg (by simp [h]), if_neg (by simp [h])]
  unfold migrate_queries_table
  rw [hmqc]
  show ({ schema := m.schema,
          qrows := ((m.qrows.map statusPendingStep).map
            statusFinishedStep).map fixNullQueryTypes,
          arows := m.arows } : MigDB) = m
  rw [map_self_of_fix m.qrows statusPendingStep (fun r hr => (hrows r hr).1)]
  rw [map_self_of_fix m.qrows statusFinishedStep (fun r hr => (hrows r hr).2.1)]
  rw [map_self_of_fix m.qrows fixNullQueryTypes (fun r hr => (hrows r hr).2.2)]

theorem fixA_idem (r : ARow) :
    fixNullIsAnnotated (fixNullIsAnnotated r) = fixNullIsAnnotated r := by
  unfold fixNullIsAnnotated
  by_cases h : (r.is_annotated == none) = true
  · rw [if_pos h]
    simp
  · rw [if_neg h]
    rw [if_neg h]

theorem mat_qrows (m : MigDB) :
    (migrate_annotations_table m).qrows = m.qrows := by
  unfold migrate_annotations_table
  split_ifs <;> rfl

theorem mat_schema_hqt (m : MigDB) :
    (migrate_annotations_table m).schema.has_query_types =
      m.schema.has_query_types := by
  unfold migrate_annotations_table
  split_ifs <;> rfl

theorem mat_hia (m : MigDB) :
    (migrate_annotations_table m).schema.has_is_annotated = true := by
  unfold migrate_annotations_table
  split_ifs with h1 <;> simp_all

theorem mat_rows_stable (m : MigDB) :
    ∀ r ∈ (migrate_annotations_table m).arows, fixNullIsAnnotated r = r := by
  intro r hr
  unfold migrate_annotations_table at hr
  obtain ⟨r1, hr1, rfl⟩ := List.mem_map.mp hr
  exact fixA_idem r1

theorem migrate_annotations_table_of_done (m : MigDB)
    (h : m.schema.has_is_annotated = true)
    (hrows : ∀ r ∈ m.arows, fixNullIsAnnotated r = r) :
    migrate_annotations_table m = m := by
  unfold migrate_annotations_table
  rw [if_neg (by simp [h])]
  show ({ schema := m.schema, qrows := m.qrows,
          arows := m.arows.map fixNullIsAnnotated } : MigDB) = m
  rw [map_self_of_fix m.arows fixNullIsAnnotated hrows]

/-- C8: running the whole schema migration a second time is a no-op: for
every starting database state the state after two runs equals the state
after one run — no column is re-added, no status value re-converted, no
`query_types`/`is_annotated` value re-written. -/
theorem migration_idempotent (m : MigDB) :
    runMigration (runMigration m) = runMigration m := by
  unfold runMigration
  have hq_schema :
      (migrate_annotations_table (migrate_queries_table m)).schema.has_query_types
        = true := by
    rw [mat_schema_hqt]
    exact (mqt_done m).1
  have hq_rows : ∀ r ∈ (migrate_annotations_table (migrate_queries_table m)).qrows,
      statusPendingStep r = r ∧ statusFinishedStep r = r ∧
      fixNullQueryTypes r = r := by
    rw [mat_qrows]
    exact (mqt_done m).2
  rw [migrate_queries_table_of_done _ hq_schema hq_rows]
  exact migrate_annotations_table_of_done _
    (mat_hia (migrate_queries_table m))
    (mat_rows_stable (migrate_queries_table m))

/-! ### Inversion of a successful single submit -/

theorem submitOne_ok_inv (db : DB) (p : SubmitPayload) (lookup : Option Int)
    (db1 : DB) (r : SubmitResult)
    (hok : submitOne db p lookup = .ok (db1, r)) :
    ∃ (vid : Nat) (dbB : DB),
      dbB.queries = db.queries ∧ dbB.annots = db.annots ∧
      db1 = (processQueries vid dbB p.queries).1 ∧
      r.queries_created = (processQueries vid dbB p.queries).2.1 ∧
      r.annots_created = (processQueries vid dbB p.queries).2.2 ∧
      r.video.id = vid := by
  cases hu : p.url with
  | none => simp [submitOne, hu] at hok
  | some url =>
  cases htl : p.title with
  | none => simp [submitOne, hu, htl] at hok
  | some title =>
  by_cases hu' : (strip url == "") = true
  · simp [submitOne, hu, htl, hu'] at hok
  · by_cases htl' : (strip title == "") = true
    · simp [submitOne, hu, htl, hu', htl'] at hok
    · cases hex : findVideoByUrl db url with
      | some v =>
        simp only [submitOne, hu, htl] at hok
        rw [if_neg hu', if_neg htl'] at hok
        simp only [hex] at hok
        rw [Except.ok.injEq, Prod.mk.injEq] at hok
        obtain ⟨h1, h2⟩ := hok
        refine ⟨v.id, db, rfl, rfl, h1.symm, ?_, ?_, ?_⟩ <;> rw [← h2]
      | none =>
        simp only [submitOne, hu, htl] at hok
        rw [if_neg hu', if_neg htl'] at hok
        simp only [hex] at hok
        cases hres : resolveDuration url p.duration lookup with
        | error e => simp [hres] at hok
        | ok dv =>
          simp only [hres] at hok
          cases hchk : checkDuration dv with
          | error e => simp [hchk] at hok
          | ok d =>
            simp only [hchk] at hok
            rw [Except.ok.injEq, Prod.mk.injEq] at hok
            obtain ⟨h1, h2⟩ := hok
            refine ⟨db.nextVideoId,
              { db with
                videos := db.videos ++
                  [{ id := db.nextVideoId, url := url, title := title,
                     description := p.description.getD "",
                     topic := p.topic.getD "",
                     duration := some d, notes := none, status := "pending" }],
                nextVideoId := db.nextVideoId + 1 },
              rfl, rfl, h1.symm, ?_, ?_, ?_⟩ <;> rw [← h2]

/-! ### C6: query dedup inside a single submission -/

/-- C6: for every successful submission whose queries list contains two
entries with the same non-blank trimmed text `qt` (and whose store held
at most one such Query under the resolved video), exactly one Query row
with text `qt` exists under the video afterwards — the second occurrence
reuses the first; `queriesCreated` equals the number of new Query rows,
so the reused Query is counted at most once; and every annotation entry
carrying a `notes` field from both occurrences is appended
(`annotationsCreated` = the total over all processed entries). -/
theorem submit_query_dedup (db : DB) (p : SubmitPayload) (lookup : Option Int)
    (db1 : DB) (r : SubmitResult) (qt : String)
    (hok : submitOne db p lookup = .ok (db1, r))
    (hqt : qt ≠ "")
    (hpre : countQueriesWith db r.video.id qt ≤ 1)
    (hocc : 2 ≤ p.queries.countP (entryHasText qt)) :
    countQueriesWith db1 r.video.id qt = 1 ∧
    db1.queries.length = db.queries.length + r.queries_created ∧
    db1.annots.length = db.annots.length + r.annots_created ∧
    r.annots_created = notesTotal p.queries := by
  obtain ⟨vid, dbB, hq, ha, h1, h2, h3, h4⟩ :=
    submitOne_ok_inv db p lookup db1 r hok
  have hany : p.queries.any (entryHasText qt) = true := by
    have hpos : 0 < p.queries.countP (entryHasText qt) := by omega
    rcases List.countP_pos_iff.mp hpos with ⟨x, hx, hpx⟩
    exact List.any_eq_true.mpr ⟨x, hx, hpx⟩
  have hcntB : countQueriesWith dbB vid qt = countQueriesWith db vid qt := by
    simp only [countQueriesWith, hq]
  subst h1
  rw [h4] at hpre ⊢
  have hcount := processQueries_count vid qt p.queries dbB
  rw [hcntB] at hcount
  refine ⟨?_, ?_, ?_, ?_⟩
  · by_cases h0 : countQueriesWith db vid qt = 0
    · rw [hcount]
      simp [h0, hany]
    · have h1' : countQueriesWith db vid qt = 1 := by omega
      rw [hcount]
      simp [h0, h1']
  · rw [h2]
    have hl := processQueries_queries_len vid p.queries dbB
    rw [hq] at hl
    exact hl
  · rw [h3]
    have hl := (processQueries_annots_len vid p.queries dbB).1
    rw [ha] at hl
    exact hl
  · rw [h3]
    exact (processQueries_annots_len vid p.queries dbB).2

/-- Witness for C6: submitting a fresh video with queries
`[" Q1 ", "Q1"]` (each with one annotation) creates exactly one "Q1"
Query, counts it once, and appends both annotations. -/
theorem submit_query_dedup_witness :
    countQueriesWith
        { videos := [{ id := 1, url := "/tmp/clip.mp4", title := "T",
                       description := "", topic := "", duration := some 5,
                       notes := none, status := "pending" }],
          queries := [{ id := 1, video_id := 1, query_text := "Q1",
                        status := "pending" }],
          annots := [{ id := 1, query_id := 1, start_timestamp := "00:00:00",
                       end_timestamp := "00:00:00", notes := "a1" },
                     { id := 2, query_id := 1, start_timestamp := "00:00:01",
                       end_timestamp := "00:00:00", notes := "a2" }],
          nextVideoId := 2, nextQueryId := 2, nextAnnotId := 3 } 1 "Q1" = 1 ∧
    (1 : Nat) = 0 + 1 ∧
    (2 : Nat) = 0 + 2 ∧
    (2 : Nat) = notesTotal
      [⟨some " Q1 ", [⟨none, none, some "a1"⟩]⟩,
       ⟨some "Q1", [⟨some "00:00:01", none, some "a2"⟩]⟩] := by
  have h := submit_query_dedup (⟨[], [], [], 1, 1, 1⟩ : DB)
    { url := some "/tmp/clip.mp4", title := some "T", description := none,
      topic := none, duration := .int 5,
      queries := [⟨some " Q1 ", [⟨none, none, some "a1"⟩]⟩,
                  ⟨some "Q1", [⟨some "00:00:01", none, some "a2"⟩]⟩] } none
    { videos := [{ id := 1, url := "/tmp/clip.mp4", title := "T",
                   description := "", topic := "", duration := some 5,
                   notes := none, status := "pending" }],
      queries := [{ id := 1, video_id := 1, query_text := "Q1",
                    status := "pending" }],
      annots := [{ id := 1, query_id := 1, start_timestamp := "00:00:00",
                   end_timestamp := "00:00:00", notes := "a1" },
                 { id := 2, query_id := 1, start_timestamp := "00:00:01",
                   end_timestamp := "00:00:00", notes := "a2" }],
      nextVideoId := 2, nextQueryId := 2, nextAnnotId := 3 }
    { video := { id := 1, url := "/tmp/clip.mp4", title := "T",
                 description := "", topic := "", duration := some 5,
                 notes := none, status := "pending" },
      video_existed := false, queries_created := 1, annots_created := 2 }
    "Q1" rfl (by decide) (by decide) (by decide)
  exact h

/-! ### C10: every creation path uses the storage default status -/

theorem submitOne_queries_mem (db : DB) (p : SubmitPayload)
    (lookup : Option Int) (db1 : DB) (r : SubmitResult)
    (hok : submitOne db p lookup = .ok (db1, r)) :
    ∀ q ∈ db1.queries, q ∈ db.queries ∨ q.status = "pending" := by
  obtain ⟨vid, dbB, hq, ha, h1, h2, h3, h4⟩ :=
    submitOne_ok_inv db p lookup db1 r hok
  subst h1
  intro q hmem
  rcases processQueries_mem vid p.queries dbB q hmem with h | h
  · rw [hq] at h
    exact Or.inl h
  · exact Or.inr h.2

theorem runItems_ok_mem (lf : String → Option Int) :
    ∀ (items : List SubmitPayload) (db : DB) (idx : Nat) (db2 : DB)
      (rs : List SubmitResult),
      runItems lf db idx items = .ok (db2, rs) →
      ∀ q ∈ db2.queries, q ∈ db.queries ∨ q.status = "pending" := by
  intro items
  induction items with
  | nil =>
    intro db idx db2 rs h q hq
    simp only [runItems, Except.ok.injEq, Prod.mk.injEq] at h
    rw [← h.1] at hq
    exact Or.inl hq
  | cons p rest ih =>
    intro db idx db2 rs h q hq
    cases hs : submitOne db p (lf (p.url.getD "")) with
    | error e => simp [runItems, hs] at h
    | ok pr =>
      obtain ⟨dbm, r⟩ := pr
      cases hr : runItems lf dbm (idx + 1) rest with
      | error ke => simp [runItems, hs, hr] at h
      | ok pr2 =>
        obtain ⟨db3, rs3⟩ := pr2
        simp only [runItems, hs, hr, Except.ok.injEq, Prod.mk.injEq] at h
        rw [← h.1] at hq
        rcases ih dbm (idx + 1) db3 rs3 hr q hq with hmem | hpend
        · exact submitOne_queries_mem db p _ dbm r hs q hmem
        · exact Or.inr hpend

/-- C10: every Query row created by any creation path — single submit,
batch submit, or the standalone createQuery — carries the storage
default status `pending` (`models.py`: `status = ... default='pending'`),
a value outside the advertised `{unverified, verified}` set; no creation
path sets the status field. -/
theorem queries_default_pending :
    (∀ (db : DB) (p : SubmitPayload) (lookup : Option Int) (db1 : DB)
        (r : SubmitResult), submitOne db p lookup = .ok (db1, r) →
      ∀ q ∈ db1.queries, q ∈ db.queries ∨ q.status = "pending") ∧
    (∀ (db : DB) (items : List SubmitPayload) (lf : String → Option Int)
        (db1 : DB) (s : BatchSummary),
        submit_multiple_videos db items lf = (db1, .ok s) →
      ∀ q ∈ db1.queries, q ∈ db.queries ∨ q.status = "pending") ∧
    (∀ (db : DB) (vid : Nat) (t : Option String) (db1 : DB) (q : Query),
        create_query db vid t = .ok (db1, q) →
      q.status = "pending" ∧
      ∀ q' ∈ db1.queries, q' ∈ db.queries ∨ q'.status = "pending") ∧
    ("pending" ≠ "unverified" ∧ "pending" ≠ "verified") := by
  refine ⟨submitOne_queries_mem, ?_, ?_, by decide, by decide⟩
  · intro db items lf db1 s h q hq
    by_cases hlen : items.length = 0
    · simp only [submit_multiple_videos, if_pos hlen, Prod.mk.injEq] at h
      exact absurd h.2 (by simp)
    · cases hr : runItems lf db 0 items with
      | error ke =>
        obtain ⟨k, e⟩ := ke
        simp only [submit_multiple_videos, if_neg hlen, hr, Prod.mk.injEq] at h
        exact absurd h.2 (by simp)
      | ok pr =>
        obtain ⟨db', rs⟩ := pr
        simp only [submit_multiple_videos, if_neg hlen, hr, Prod.mk.injEq] at h
        rw [← h.1] at hq
        exact runItems_ok_mem lf items db 0 db' rs hr q hq
  · intro db vid t db1 q h
    cases hf : db.videos.find? (fun v => v.id == vid) with
    | none => simp [create_query, hf] at h
    | some v0 =>
      cases ht : t with
      | none => simp [create_query, hf, ht] at h
      | some txt =>
        by_cases ht' : (strip txt == "") = true
        · simp [create_query, hf, ht, ht'] at h
        · simp only [create_query, hf, ht] at h
          rw [if_neg ht'] at h
          rw [Except.ok.injEq, Prod.mk.injEq] at h
          obtain ⟨h1, h2⟩ := h
          constructor
          · rw [← h2]
          · intro q' hq'
            rw [← h1] at hq'
            simp only [List.mem_append, List.mem_singleton] at hq'
            rcases hq' with hq' | hq'
            · exact Or.inl hq'
            · subst hq'
              exact Or.inr rfl

/-- Witness for C10: a single submit creating a "Q1" Query on a fresh
store, and a standalone createQuery, both yield status `pending`. -/
theorem queries_default_pending_witness :
    (∀ q ∈ ({ videos := [{ id := 1, url := "/tmp/clip.mp4", title := "T",
                           description := "", topic := "",
                           duration := some 5, notes := none,
                           status := "pending" }],
              queries := [{ id := 1, video_id := 1, query_text := "Q1",
                            status := "pending" }],
              annots := [], nextVideoId := 2, nextQueryId := 2,
              nextAnnotId := 1 } : DB).queries,
      q ∈ ([] : List Query) ∨ q.status = "pending") ∧
    ("pending" : String) ≠ "unverified" := by
  constructor
  · have h := queries_default_pending.1 (⟨[], [], [], 1, 1, 1⟩ : DB)
      { url := some "/tmp/clip.mp4", title := some "T", description := none,
        topic := none, duration := .int 5,
        queries := [⟨some "Q1", []⟩] } none
      { videos := [{ id := 1, url := "/tmp/clip.mp4", title := "T",
                     description := "", topic := "", duration := some 5,
                     notes := none, status := "pending" }],
        queries := [{ id := 1, video_id := 1, query_text := "Q1",
                      status := "pending" }],
        annots := [], nextVideoId := 2, nextQueryId := 2, nextAnnotId := 1 }
      { video := { id := 1, url := "/tmp/clip.mp4", title := "T",
                   description := "", topic := "", duration := some 5,
                   notes := none, status := "pending" },
        video_existed := false, queries_created := 1, annots_created := 0 }
      rfl
    exact h
  · exact queries_default_pending.2.2.2.1

/-! ### C4: all-or-nothing batch submit -/

theorem runItems_error_inv (lf : String → Option Int) :
    ∀ (items : List SubmitPayload) (db : DB) (idx k : Nat) (e : SubmitError),
      runItems lf db idx items = .error (k, e) →
      idx ≤ k ∧ k - idx < items.length ∧
      ∃ p dbk, items.get? (k - idx) = some p ∧
        submitOne dbk p (lf (p.url.getD "")) = .error e := by
  intro items
  induction items with
  | nil =>
    intro db idx k e h
    simp [runItems] at h
  | cons p rest ih =>
    intro db idx k e h
    cases hs : submitOne db p (lf (p.url.getD "")) with
    | error e' =>
      simp only [runItems, hs, Except.error.injEq, Prod.mk.injEq] at h
      obtain ⟨h1, h2⟩ := h
      subst h1
      subst h2
      refine ⟨le_refl _, by simp, p, db, ?_, hs⟩
      simp
    | ok pr =>
      obtain ⟨dbm, r⟩ := pr
      cases hr : runItems lf dbm (idx + 1) rest with
      | error ke =>
        simp only [runItems, hs, hr] at h
        rw [h] at hr
        obtain ⟨hle, hlt, p', dbk, hget, herr⟩ := ih dbm (idx + 1) k e hr
        refine ⟨by omega, by simp; omega, p', dbk, ?_, herr⟩
        have hk : k - idx = (k - (idx + 1)) + 1 := by omega
        rw [hk]
        simpa using hget
      | ok pr2 =>
        obtain ⟨db3, rs3⟩ := pr2
        simp [runItems, hs, hr] at h

/-- C4: whenever the batch submit answers with a per-item error, the
persistent store is exactly the pre-batch store — no Video, Query or
Annotation from any item, including items before the failing one, is
persisted — and the reported index `k` names a real item of the batch on
which the per-item engine fails with that error. -/
theorem submit_batch_atomic (db : DB) (items : List SubmitPayload)
    (lf : String → Option Int) (k : Nat) (e : SubmitError)
    (h : (submit_multiple_videos db items lf).2 = .error (.itemError k e)) :
    (submit_multiple_videos db items lf).1 = db ∧
    k < items.length ∧
    ∃ p dbk, items.get? k = some p ∧
      submitOne dbk p (lf (p.url.getD "")) = .error e := by
  have hlen : ¬items.length = 0 := by
    intro h0
    rw [List.length_eq_zero] at h0
    subst h0
    simp [submit_multiple_videos] at h
  cases hr : runItems lf db 0 items with
  | error ke =>
    obtain ⟨k', e'⟩ := ke
    have hform : submit_multiple_videos db items lf =
        (db, .error (.itemError k' e')) := by
      unfold submit_multiple_videos
      rw [if_neg hlen, hr]
    rw [hform] at h
    simp only [Except.error.injEq, BatchError.itemError.injEq] at h
    obtain ⟨h1, h2⟩ := h
    subst h1
    subst h2
    rw [hform]
    obtain ⟨hle, hlt, hw⟩ := runItems_error_inv lf items db 0 k' e' hr
    simp only [Nat.sub_zero] at hlt hw
    exact ⟨rfl, hlt, hw⟩
  | ok pr =>
    obtain ⟨db', rs⟩ := pr
    have hform : (submit_multiple_videos db items lf).2 = .ok
        { results := rs,
          new_videos := (rs.filter (fun r => !r.video_existed)).length,
          existing_videos := (rs.filter (fun r => r.video_existed)).length,
          total_queries_created := (rs.map (fun r => r.queries_created)).sum,
          total_annots_created := (rs.map (fun r => r.annots_created)).sum } := by
      unfold submit_multiple_videos
      rw [if_neg hlen, hr]
    rw [hform] at h
    cases h

/-- Witness for C4: a 3-item batch whose middle item has an empty title:
the first item alone would have created a Video, yet the batch answer is
the error at index 1 and the committed store is the original one. -/
theorem submit_batch_atomic_witness :
    ((submit_multiple_videos (⟨[], [], [], 1, 1, 1⟩ : DB)
        [{ url := some "/a.mp4", title := some "A", description := none,
           topic := none, duration := .int 5, queries := [] },
         { url := some "/b.mp4", title := some " ", description := none,
           topic := none, duration := .int 5, queries := [] },
         { url := some "/c.mp4", title := some "C", description := none,
           topic := none, duration := .int 5, queries := [] }]
        (fun _ => none)).2 = .error (.itemError 1 .emptyTitle)) ∧
    ((submit_multiple_videos (⟨[], [], [], 1, 1, 1⟩ : DB)
        [{ url := some "/a.mp4", title := some "A", description := none,
           topic := none, duration := .int 5, queries := [] },
         { url := some "/b.mp4", title := some " ", description := none,
           topic := none, duration := .int 5, queries := [] },
         { url := some "/c.mp4", title := some "C", description := none,
           topic := none, duration := .int 5, queries := [] }]
        (fun _ => none)).1 = (⟨[], [], [], 1, 1, 1⟩ : DB)) ∧
    (1 : Nat) < 3 ∧
    (∃ db1 r, submitOne (⟨[], [], [], 1, 1, 1⟩ : DB)
        { url := some "/a.mp4", title := some "A", description := none,
          topic := none, duration := .int 5, queries := [] } none =
      .ok (db1, r) ∧ db1.videos.length = 1) := by
  have h := submit_batch_atomic (⟨[], [], [], 1, 1, 1⟩ : DB)
    [{ url := some "/a.mp4", title := some "A", description := none,
       topic := none, duration := .int 5, queries := [] },
     { url := some "/b.mp4", title := some " ", description := none,
       topic := none, duration := .int 5, queries := [] },
     { url := some "/c.mp4", title := some "C", description := none,
       topic := none, duration := .int 5, queries := [] }]
    (fun _ => none) 1 .emptyTitle rfl
  refine ⟨rfl, h.1, h.2.1, ?_⟩
  exact ⟨{ videos := [{ id := 1, url := "/a.mp4", title := "A",
                        description := "", topic := "", duration := some 5,
                        notes := none, status := "pending" }],
           queries := [], annots := [],
           nextVideoId := 2, nextQueryId := 1, nextAnnotId := 1 },
         { video := { id := 1, url := "/a.mp4", title := "A",
                      description := "", topic := "", duration := some 5,
                      notes := none, status := "pending" },
           video_existed := false, queries_created := 0,
           annots_created := 0 }, rfl, rfl⟩

end VlmBackend
